import Mathlib

/-!
Verification of the FinDash transaction categorization and budget
reconciliation core (`utils.py`, `config.py`, and the budget-progress
arithmetic of `app.py`), shallowly embedded in Lean 4.

Modelling conventions:
* pandas DataFrames become Lean lists of records; row iteration order is
  list order.
* Python floats (transaction amounts) become `ℚ`.
* Python strings become Lean `String`; `str.lower()` is modelled by
  ASCII lowering (`Char.toLower`), which agrees with Python on all the
  ASCII data this application handles.
* `pd.Series.get(key, default)` on a transaction row dispatches on the
  column names of the Transactions sheet (`setup_sheets.py`).
-/

/-- Python `needle in hay` on lists of characters: some tail of `hay`
starts with `needle`. The empty needle matches everything. -/
def charsContain (needle : List Char) : List Char → Bool
  | [] => needle.isEmpty
  | c :: rest => needle.isPrefixOf (c :: rest) || charsContain needle rest

/-- Python `needle in hay` for strings (substring containment). -/
def pyIn (needle hay : String) : Bool :=
  charsContain needle.data hay.data

/-- Python `s.lower()` (ASCII case folding). -/
def pyLower (s : String) : String :=
  ⟨s.data.map Char.toLower⟩

/-- Python `s.startswith(p)`. -/
def pyStartsWith (s p : String) : Bool :=
  p.data.isPrefixOf s.data

/-- Python `s.endswith(p)`. -/
def pyEndsWith (s p : String) : Bool :=
  p.data.isSuffixOf s.data

/-- Python `abs` on a rational number. -/
def pyAbs (q : ℚ) : ℚ :=
  if q < 0 then -q else q

theorem pyAbs_eq_abs (q : ℚ) : pyAbs q = |q| := by
  unfold pyAbs
  split
  · exact (abs_of_neg (by assumption)).symm
  · exact (abs_of_nonneg (le_of_not_lt (by assumption))).symm

/-- Zero-padded two-digit rendering of a month number (`strftime %m`). -/
def pad2 (n : Nat) : String :=
  if n < 10 then "0" ++ toString n else toString n

/-- Zero-padded four-digit rendering of a year (`strftime %Y`). -/
def pad4 (n : Nat) : String :=
  if n < 10 then "000" ++ toString n
  else if n < 100 then "00" ++ toString n
  else if n < 1000 then "0" ++ toString n
  else toString n

/-- A calendar date (the transactions sheet stores full dates; only the
year and month take part in period filtering). -/
structure Date where
  year : Nat
  month : Nat
  day : Nat
deriving DecidableEq, Repr

/-- `date.dt.strftime("%Y-%m")`: the year-month key of a date, as used by
the monthly filters in `utils.py` and `app.py`. -/
def monthKey (d : Date) : String :=
  pad4 d.year ++ "-" ++ pad2 d.month

/-- Python `str()` of a pandas Timestamp (models the rendering only; no
verified claim depends on this rendering). -/
def pyStrDate (d : Date) : String :=
  pad4 d.year ++ "-" ++ pad2 d.month ++ "-" ++ pad2 d.day ++ " 00:00:00"

/-- Python `str()` of the float amount cell (models the rendering only,
exactly for integral values; no verified claim depends on this rendering). -/
def pyStrRat (q : ℚ) : String :=
  if q.den = 1 then toString q.num ++ ".0"
  else toString q.num ++ "/" ++ toString q.den

/-- Python `str()` of a bool. -/
def pyStrBool (b : Bool) : String :=
  if b then "True" else "False"

/-- A row of the Transactions sheet
(`setup_sheets.py`: `user_id, transaction_id, date, payee, amount,
category, account_name, account_id, notes, pending, created_at,
modified_at`). -/
structure Txn where
  user_id : String
  transaction_id : String
  date : Date
  payee : String
  amount : ℚ
  category : String
  account_name : String
  account_id : String
  notes : String
  pending : Bool
  created_at : String
  modified_at : String
deriving DecidableEq, Repr

/-- The column names of the Transactions sheet: the keys present on a
transaction row. -/
def txnColumns : List String :=
  ["user_id", "transaction_id", "date", "payee", "amount",
   "category", "account_name", "account_id", "notes",
   "pending", "created_at", "modified_at"]

/-- `str(transaction.get(field, ''))`: dynamic column lookup on a
transaction row, defaulting to the empty string for an absent column. -/
def Txn.getField (t : Txn) (field : String) : String :=
  if field = "user_id" then t.user_id
  else if field = "transaction_id" then t.transaction_id
  else if field = "date" then pyStrDate t.date
  else if field = "payee" then t.payee
  else if field = "amount" then pyStrRat t.amount
  else if field = "category" then t.category
  else if field = "account_name" then t.account_name
  else if field = "account_id" then t.account_id
  else if field = "notes" then t.notes
  else if field = "pending" then pyStrBool t.pending
  else if field = "created_at" then t.created_at
  else if field = "modified_at" then t.modified_at
  else ""

/-- A row of the User_Rules sheet
(`setup_sheets.py`: `user_id, rule_id, priority, rule_field,
rule_condition, rule_value, rule_category, created_at`). -/
structure Rule where
  user_id : String
  rule_id : String
  priority : Nat
  rule_field : String
  rule_condition : String
  rule_value : String
  rule_category : String
  created_at : String
deriving DecidableEq, Repr

/-- A row of the Budget_Monthly sheet (the fields `utils.py` reads). -/
structure Budget where
  user_id : String
  month_year : String
  category : String
  budgeted : ℚ
deriving DecidableEq, Repr

/-- `config.CATEGORY_KEYWORDS` (`config.py`), an ordered mapping: Python
dicts iterate in insertion order. -/
def CATEGORY_KEYWORDS : List (String × List String) :=
  [("Income", ["salary", "paycheck", "deposit", "income", "payment received"]),
   ("Food & Dining", ["restaurant", "cafe", "starbucks", "mcdonald", "chipotle",
      "pizza", "uber eats", "doordash", "grubhub"]),
   ("Groceries", ["whole foods", "trader joe", "safeway", "kroger", "walmart",
      "target", "grocery", "market"]),
   ("Transportation", ["uber", "lyft", "taxi", "transit", "metro", "bus",
      "train", "parking"]),
   ("Gas & Fuel", ["shell", "chevron", "exxon", "mobil", "bp", "gas", "fuel"]),
   ("Shopping", ["amazon", "ebay", "etsy", "target", "walmart", "costco",
      "best buy"]),
   ("Entertainment", ["netflix", "spotify", "hulu", "disney", "movie",
      "theater", "steam", "playstation"]),
   ("Bills & Utilities", ["electric", "water", "internet", "phone", "verizon",
      "at&t", "comcast", "utility"]),
   ("Healthcare", ["pharmacy", "doctor", "hospital", "medical", "cvs",
      "walgreens", "health"]),
   ("Travel", ["airline", "hotel", "airbnb", "booking", "expedia", "flight"]),
   ("Personal Care", ["salon", "spa", "gym", "fitness", "haircut"]),
   ("Transfer", ["transfer", "venmo", "paypal", "zelle", "cash app"])]

/-- Inner loops of `auto_categorize_transaction`: walk the keyword table
in order and return the first category one of whose keywords (lowered)
occurs in the lowered payee. -/
def findKeywordCategory (payee_lower : String) :
    List (String × List String) → Option String
  | [] => none
  | (category, keywords) :: rest =>
    if keywords.any (fun keyword => pyIn (pyLower keyword) payee_lower) then
      some category
    else
      findKeywordCategory payee_lower rest

/-- `utils.auto_categorize_transaction`. -/
def auto_categorize_transaction (payee : String) : String :=
  if payee = "" then "Uncategorized"
  else
    match findKeywordCategory (pyLower payee) CATEGORY_KEYWORDS with
    | some category => category
    | none => "Uncategorized"

/-- `utils.apply_rule`: does a rule match a transaction? -/
def apply_rule (transaction : Txn) (rule : Rule) : Bool :=
  let field_value := pyLower (transaction.getField rule.rule_field)
  let rule_value := pyLower rule.rule_value
  let condition := rule.rule_condition
  if condition = "contains" then pyIn rule_value field_value
  else if condition = "equals" then field_value == rule_value
  else if condition = "starts_with" then pyStartsWith field_value rule_value
  else if condition = "ends_with" then pyEndsWith field_value rule_value
  else false

/-- Inner loop of `apply_rules_to_transactions`: scan the rules in order,
stop at the first match (`break`), and emit an update only when the
matched category differs from the transaction's current one. -/
def processTxn (txn : Txn) : List Rule → Option (String × String)
  | [] => none
  | rule :: rest =>
    if apply_rule txn rule then
      if txn.category ≠ rule.rule_category then
        some (txn.transaction_id, rule.rule_category)
      else
        none
    else
      processTxn txn rest

/-- `utils.apply_rules_to_transactions`. -/
def apply_rules_to_transactions (transactions : List Txn) (rules : List Rule) :
    List (String × String) :=
  match transactions with
  | [] => []
  | txn :: rest =>
    match processTxn txn rules with
    | some update => update :: apply_rules_to_transactions rest rules
    | none => apply_rules_to_transactions rest rules

/-- `transactions_df[transactions_df['amount'] < 0].groupby('category')['amount'].sum()`
looked up at one category, with `.map(...).fillna(0)` supplying `0` when
the category has no expense rows. -/
def categorySpending (transactions : List Txn) (category : String) : ℚ :=
  (((transactions.filter (fun t => t.amount < 0)).filter
      (fun t => t.category = category)).map Txn.amount).sum

/-- `utils.calculate_budget_progress`: each budget row paired with the
`spent` column attached to it. -/
def calculate_budget_progress (budgets : List Budget) (transactions : List Txn) :
    List (Budget × ℚ) :=
  budgets.map (fun b => (b, categorySpending transactions b.category))

/-- `remaining = budgeted - spent` with `spent = abs(budget['spent'])`
(`app.py`, budgets page). -/
def remaining_of (budgeted spent : ℚ) : ℚ :=
  budgeted - pyAbs spent

/-- `percent = (spent / budgeted * 100) if budgeted > 0 else 0` with
`spent = abs(budget['spent'])` (`app.py`, budgets page). -/
def percent_of (budgeted spent : ℚ) : ℚ :=
  if 0 < budgeted then pyAbs spent / budgeted * 100 else 0

/-- `utils.calculate_trend`. -/
def calculate_trend (current previous : ℚ) : ℚ × String :=
  if previous = 0 then (0, "neutral")
  else
    let change := (current - previous) / pyAbs previous * 100
    let direction :=
      if 0 < change then "up"
      else if change < 0 then "down"
      else "neutral"
    (pyAbs change, direction)

/-- The expense rows of `get_top_merchants` after
`expenses['amount'] = expenses['amount'].abs()`, reduced to the two
columns the groupby uses: `(payee, abs(amount))`. -/
def expensePairs (transactions : List Txn) : List (String × ℚ) :=
  (transactions.filter (fun t => t.amount < 0)).map
    (fun t => (t.payee, pyAbs t.amount))

/-- Lexicographic comparison of character lists by code point: the order
Python uses on `str` and pandas uses to sort group keys. -/
def charListLe : List Char → List Char → Bool
  | [], _ => true
  | _ :: _, [] => false
  | a :: as, b :: bs =>
    if a < b then true else if b < a then false else charListLe as bs

/-- Lexicographic order on strings (Python `str` comparison). -/
def strLe (a b : String) : Prop :=
  charListLe a.data b.data = true

instance : DecidableRel strLe :=
  fun a b => inferInstanceAs (Decidable (charListLe a.data b.data = true))

theorem charListLe_total : ∀ as bs : List Char,
    charListLe as bs = true ∨ charListLe bs as = true
  | [], _ => Or.inl rfl
  | _ :: _, [] => Or.inr rfl
  | a :: as, b :: bs => by
    by_cases hab : a < b
    · left; simp [charListLe, hab]
    · by_cases hba : b < a
      · right; simp [charListLe, hba]
      · have hEq : a = b := le_antisymm (not_lt.mp hba) (not_lt.mp hab)
        subst hEq
        rcases charListLe_total as bs with h | h
        · left; simp [charListLe, lt_irrefl, h]
        · right; simp [charListLe, lt_irrefl, h]

theorem charListLe_trans : ∀ as bs cs : List Char,
    charListLe as bs = true → charListLe bs cs = true →
    charListLe as cs = true
  | [], _, _, _, _ => rfl
  | _ :: _, [], _, h, _ => by simp [charListLe] at h
  | _ :: _, _ :: _, [], _, h => by simp [charListLe] at h
  | a :: as, b :: bs, c :: cs, h1, h2 => by
    by_cases hab : a < b
    · by_cases hbc : b < c
      · simp [charListLe, lt_trans hab hbc]
      · by_cases hcb : c < b
        · simp [charListLe, hbc, hcb] at h2
        · have hEq : b = c := le_antisymm (not_lt.mp hcb) (not_lt.mp hbc)
          subst hEq
          simp [charListLe, hab]
    · by_cases hba : b < a
      · simp [charListLe, hab, hba] at h1
      · have hEq : a = b := le_antisymm (not_lt.mp hba) (not_lt.mp hab)
        subst hEq
        simp only [charListLe, lt_self_iff_false, if_false] at h1
        by_cases hac : a < c
        · simp [charListLe, hac]
        · by_cases hca : c < a
          · simp [charListLe, hac, hca] at h2
          · simp only [charListLe, if_neg hac, if_neg hca] at h2 ⊢
            exact charListLe_trans as bs cs h1 h2

instance : IsTotal String strLe :=
  ⟨fun a b => charListLe_total a.data b.data⟩

instance : IsTrans String strLe :=
  ⟨fun a b c => charListLe_trans a.data b.data c.data⟩

/-- The group keys of `groupby('payee')`: the distinct payees in
ascending order (pandas `groupby` sorts its keys). -/
def groupKeys (rows : List (String × ℚ)) : List String :=
  ((rows.map Prod.fst).dedup).insertionSort strLe

/-- `groupby('payee')['amount'].sum()`: each group key paired with the
sum of its amounts. -/
def groupedSums (rows : List (String × ℚ)) : List (String × ℚ) :=
  (groupKeys rows).map
    (fun p => (p, ((rows.filter (fun x => x.1 = p)).map Prod.snd).sum))

/-- The comparison of `sort_values(ascending=False)` on the summed
amounts. The sort itself is modelled as a stable sort
(`List.insertionSort`). -/
def byAmountDesc (a b : String × ℚ) : Prop :=
  b.2 ≤ a.2

instance : DecidableRel byAmountDesc :=
  fun a b => inferInstanceAs (Decidable (b.2 ≤ a.2))

instance : IsTotal (String × ℚ) byAmountDesc :=
  ⟨fun a b => le_total b.2 a.2⟩

instance : IsTrans (String × ℚ) byAmountDesc :=
  ⟨fun _ _ _ h1 h2 => le_trans h2 h1⟩

/-- `utils.get_top_merchants`: rows `(Merchant, Total Spent)`. -/
def get_top_merchants (transactions : List Txn) (n : Nat) : List (String × ℚ) :=
  (((groupedSums (expensePairs transactions)).insertionSort byAmountDesc).take n)

/-- The dictionary returned by `calculate_monthly_summary`. -/
structure Summary where
  income : ℚ
  expenses : ℚ
  net : ℚ
  transaction_count : Nat
  avg_transaction : ℚ
deriving DecidableEq, Repr

/-- `utils.calculate_monthly_summary`. -/
def calculate_monthly_summary (transactions : List Txn) (month_year : String) :
    Summary :=
  let month_df := transactions.filter (fun t => monthKey t.date == month_year)
  if month_df.length = 0 then
    { income := 0, expenses := 0, net := 0, transaction_count := 0,
      avg_transaction := 0 }
  else
    let income := ((month_df.filter (fun t => 0 < t.amount)).map Txn.amount).sum
    let expenses :=
      pyAbs ((month_df.filter (fun t => t.amount < 0)).map Txn.amount).sum
    { income := income
      expenses := expenses
      net := income - expenses
      transaction_count := month_df.length
      avg_transaction := ((month_df.map Txn.amount).sum) / (month_df.length : ℚ) }

/-! ## Supporting lemmas -/

theorem findKeywordCategory_eq (p : String) :
    ∀ table : List (String × List String),
      findKeywordCategory p table =
        (table.find?
          (fun ck => ck.2.any (fun kw => pyIn (pyLower kw) p))).map Prod.fst
  | [] => rfl
  | (c, kws) :: rest => by
    by_cases h : kws.any (fun kw => pyIn (pyLower kw) p)
    · simp [findKeywordCategory, List.find?_cons, h]
    · simp [findKeywordCategory, List.find?_cons, h,
        findKeywordCategory_eq p rest]

theorem processTxn_eq (t : Txn) :
    ∀ rules : List Rule,
      processTxn t rules =
        match rules.find? (fun r => apply_rule t r) with
        | some r =>
          if t.category = r.rule_category then none
          else some (t.transaction_id, r.rule_category)
        | none => none
  | [] => rfl
  | r :: rest => by
    by_cases h : apply_rule t r
    · by_cases hcat : t.category = r.rule_category
      · simp [processTxn, List.find?_cons, h, hcat]
      · simp [processTxn, List.find?_cons, h, hcat]
    · simp [processTxn, List.find?_cons, h, processTxn_eq t rest]

theorem getField_absent (t : Txn) (f : String) (hf : f ∉ txnColumns) :
    t.getField f = "" := by
  simp only [txnColumns, List.mem_cons, List.not_mem_nil, or_false,
    not_or] at hf
  obtain ⟨h1, h2, h3, h4, h5, h6, h7, h8, h9, h10, h11, h12⟩ := hf
  simp [Txn.getField, h1, h2, h3, h4, h5, h6, h7, h8, h9, h10, h11, h12]

/-! ## Claim theorems -/

/-- Claim C2: `auto_categorize_transaction` lower-cases the payee and
returns the first category, in the fixed keyword-table iteration order,
one of whose (lower-cased) keywords occurs as a substring of the
lower-cased payee; for an empty payee or when no keyword matches it
returns "Uncategorized". -/
theorem auto_categorize_spec (payee : String) :
    auto_categorize_transaction payee =
      if payee = "" then "Uncategorized"
      else
        match CATEGORY_KEYWORDS.find?
            (fun ck => ck.2.any (fun kw => pyIn (pyLower kw) (pyLower payee))) with
        | some ck => ck.1
        | none => "Uncategorized" := by
  unfold auto_categorize_transaction
  by_cases hp : payee = ""
  · simp [hp]
  · rw [if_neg hp, if_neg hp, findKeywordCategory_eq]
    cases h : CATEGORY_KEYWORDS.find?
        (fun ck => ck.2.any (fun kw => pyIn (pyLower kw) (pyLower payee))) <;>
      simp [h]

/-- Claim C6: `calculate_trend` returns `(0, "neutral")` whenever the
previous value is zero (in particular at `(0, 0)` and `(100, 0)`), and
otherwise returns `abs((current - previous) / previous) * 100` together
with direction "up" when current > previous, "down" when
current < previous, and "neutral" otherwise. -/
theorem calculate_trend_spec (current previous : ℚ) :
    calculate_trend 0 0 = (0, "neutral") ∧
    calculate_trend 100 0 = (0, "neutral") ∧
    (previous = 0 → calculate_trend current previous = (0, "neutral")) ∧
    (previous ≠ 0 →
      calculate_trend current previous =
        (|(current - previous) / previous| * 100,
         if previous < current then "up"
         else if current < previous then "down"
         else "neutral")) := by
  refine ⟨by norm_num [calculate_trend], by norm_num [calculate_trend], ?_, ?_⟩
  · intro h
    simp [calculate_trend, h]
  · intro h
    have hpos : 0 < |previous| := abs_pos.mpr h
    have hsign : ∀ x : ℚ, 0 < x / |previous| * 100 ↔ 0 < x := by
      intro x
      rw [div_mul_eq_mul_div, lt_div_iff₀ hpos]
      constructor <;> intro hx <;> nlinarith
    have hsignneg : ∀ x : ℚ, x / |previous| * 100 < 0 ↔ x < 0 := by
      intro x
      rw [div_mul_eq_mul_div, div_lt_iff₀ hpos]
      constructor <;> intro hx <;> nlinarith
    simp only [calculate_trend, if_neg h, pyAbs_eq_abs]
    refine Prod.ext ?_ ?_
    · show |(current - previous) / |previous| * 100| =
        |(current - previous) / previous| * 100
      rw [abs_mul, abs_div, abs_abs, abs_div]
      norm_num
    · show (if 0 < (current - previous) / |previous| * 100 then "up"
        else if (current - previous) / |previous| * 100 < 0 then "down"
        else "neutral") =
        (if previous < current then "up"
         else if current < previous then "down"
         else "neutral")
      by_cases h1 : previous < current
      · rw [if_pos ((hsign _).mpr (sub_pos.mpr h1)), if_pos h1]
      · rw [if_neg (fun hc => h1 (sub_pos.mp ((hsign _).mp hc))), if_neg h1]
        by_cases h2 : current < previous
        · rw [if_pos ((hsignneg _).mpr (sub_neg.mpr h2)), if_pos h2]
        · rw [if_neg (fun hc => h2 (sub_neg.mp ((hsignneg _).mp hc))),
            if_neg h2]

/-- Witness for Claim C6 at `(150, 100)`. -/
theorem calculate_trend_spec_witness :
    ((100 : ℚ) ≠ 0) ∧
    calculate_trend 150 100 =
      (|((150 : ℚ) - 100) / 100| * 100,
       if (100 : ℚ) < 150 then "up"
       else if (150 : ℚ) < 100 then "down"
       else "neutral") :=
  ⟨by norm_num, (calculate_trend_spec 150 100).2.2.2 (by norm_num)⟩

/-- Claim C7: a rule whose condition is none of contains, equals,
starts_with, ends_with never matches any transaction (fails closed),
whatever its field and value. -/
theorem apply_rule_unknown_condition (t : Txn) (r : Rule)
    (h : r.rule_condition ∉
      (["contains", "equals", "starts_with", "ends_with"] : List String)) :
    apply_rule t r = false := by
  simp only [List.mem_cons, List.not_mem_nil, or_false, not_or] at h
  obtain ⟨h1, h2, h3, h4⟩ := h
  simp [apply_rule, h1, h2, h3, h4]

/-- Witness for Claim C7 at a rule with condition "matches". -/
theorem apply_rule_unknown_condition_witness :
    ("matches" ∉
      (["contains", "equals", "starts_with", "ends_with"] : List String)) ∧
    apply_rule
      { user_id := "u", transaction_id := "t1", date := ⟨2025, 1, 5⟩,
        payee := "AMAZON.COM", amount := -7, category := "Uncategorized",
        account_name := "", account_id := "", notes := "", pending := false,
        created_at := "", modified_at := "" }
      { user_id := "u", rule_id := "r1", priority := 1,
        rule_field := "payee", rule_condition := "matches",
        rule_value := "amazon", rule_category := "Shopping",
        created_at := "" } = false :=
  ⟨by decide, apply_rule_unknown_condition _ _ (by decide)⟩

/-- Claim C10: a rule whose field is absent from the transaction row is
evaluated against the empty string instead of failing closed, so as soon
as its lower-cased value is empty it matches every transaction under any
of the four known conditions. -/
theorem apply_rule_absent_field (t : Txn) (r : Rule)
    (hf : r.rule_field ∉ txnColumns)
    (hv : pyLower r.rule_value = "")
    (hc : r.rule_condition ∈
      (["contains", "equals", "starts_with", "ends_with"] : List String)) :
    t.getField r.rule_field = "" ∧ apply_rule t r = true := by
  have hg := getField_absent t r.rule_field hf
  refine ⟨hg, ?_⟩
  have hlow : pyLower (t.getField r.rule_field) = "" := by rw [hg]; rfl
  simp only [List.mem_cons, List.not_mem_nil, or_false] at hc
  rcases hc with hc | hc | hc | hc <;>
    simp +decide [apply_rule, hc, hlow, hv]

/-- A sample transaction used by the Claim C10 witness. -/
def cafeTxn : Txn :=
  { user_id := "u", transaction_id := "t1", date := ⟨2025, 1, 5⟩,
    payee := "LOCAL CAFE", amount := -3, category := "Food & Dining",
    account_name := "", account_id := "", notes := "", pending := false,
    created_at := "", modified_at := "" }

/-- A rule on the misspelled field "payeee" with an empty value, used by
the Claim C10 witness. -/
def emptyValueRule : Rule :=
  { user_id := "u", rule_id := "r1", priority := 1,
    rule_field := "payeee", rule_condition := "contains",
    rule_value := "", rule_category := "Other", created_at := "" }

/-- Witness for Claim C10: a rule on the misspelled field "payeee" with
empty value matches a transaction whose payee does not mention it. -/
theorem apply_rule_absent_field_witness :
    (emptyValueRule.rule_field ∉ txnColumns) ∧
    pyLower emptyValueRule.rule_value = "" ∧
    (emptyValueRule.rule_condition ∈
      (["contains", "equals", "starts_with", "ends_with"] : List String)) ∧
    (cafeTxn.getField emptyValueRule.rule_field = "" ∧
      apply_rule cafeTxn emptyValueRule = true) :=
  ⟨by decide, by decide, by decide,
    apply_rule_absent_field cafeTxn emptyValueRule (by decide) (by decide)
      (by decide)⟩

/-- Claim C3: with a fixed positive budget, `percent_of` is weakly
increasing and `remaining_of` weakly decreasing in the expense magnitude,
and an over-budget spend yields a negative remaining and a percent above
100, with no clamping. -/
theorem budget_progress_monotone (b s₁ s₂ s : ℚ) (hb : 0 < b)
    (h12 : pyAbs s₁ ≤ pyAbs s₂) (hover : b < pyAbs s) :
    percent_of b s₁ ≤ percent_of b s₂ ∧
    remaining_of b s₂ ≤ remaining_of b s₁ ∧
    remaining_of b s < 0 ∧
    100 < percent_of b s := by
  unfold percent_of remaining_of
  rw [if_pos hb, if_pos hb, if_pos hb]
  refine ⟨?_, ?_, ?_, ?_⟩
  · have hd : pyAbs s₁ / b ≤ pyAbs s₂ / b := by gcongr
    nlinarith
  · linarith
  · linarith
  · have h1 : 1 < pyAbs s / b := (one_lt_div hb).mpr hover
    nlinarith

/-- Witness for Claim C3 at `budgeted = 500`, spends `-100`, `-200`,
`-650` (the spec's over-budget example). -/
theorem budget_progress_monotone_witness :
    (0 : ℚ) < 500 ∧ pyAbs (-100) ≤ pyAbs (-200) ∧ (500 : ℚ) < pyAbs (-650) ∧
    (percent_of 500 (-100) ≤ percent_of 500 (-200) ∧
     remaining_of 500 (-200) ≤ remaining_of 500 (-100) ∧
     remaining_of 500 (-650) < 0 ∧
     100 < percent_of 500 (-650)) :=
  ⟨by norm_num, by norm_num [pyAbs], by norm_num [pyAbs],
    budget_progress_monotone 500 (-100) (-200) (-650) (by norm_num)
      (by norm_num [pyAbs]) (by norm_num [pyAbs])⟩

/-- Claim C1: for rules presented in ascending priority order,
`apply_rules_to_transactions` emits, per transaction, exactly the update
determined by the first matching rule (none when no rule matches or when
the matched category equals the current one), in transaction iteration
order, hence at most one update per transaction. -/
theorem apply_rules_spec (txns : List Txn) (rules : List Rule)
    (_hsorted : rules.Pairwise (fun a b => a.priority ≤ b.priority)) :
    apply_rules_to_transactions txns rules =
      txns.filterMap (fun t =>
        match rules.find? (fun r => apply_rule t r) with
        | some r =>
          if t.category = r.rule_category then none
          else some (t.transaction_id, r.rule_category)
        | none => none) ∧
    (apply_rules_to_transactions txns rules).length ≤ txns.length := by
  have key : apply_rules_to_transactions txns rules =
      txns.filterMap (fun t =>
        match rules.find? (fun r => apply_rule t r) with
        | some r =>
          if t.category = r.rule_category then none
          else some (t.transaction_id, r.rule_category)
        | none => none) := by
    induction txns with
    | nil => rfl
    | cons t ts ih =>
      rw [apply_rules_to_transactions, List.filterMap_cons, processTxn_eq, ih]
      cases rules.find? (fun r => apply_rule t r) with
      | none => rfl
      | some r =>
        by_cases hcat : t.category = r.rule_category
        · simp [hcat]
        · simp [hcat]
  refine ⟨key, ?_⟩
  rw [key]
  exact List.length_filterMap_le _ _

/-- Transactions used by the Claim C1 witness: the spec's worked
example (`AMAZON.COM`, currently uncategorized). -/
def amazonTxn : Txn :=
  { user_id := "u", transaction_id := "txn_id", date := ⟨2025, 1, 5⟩,
    payee := "AMAZON.COM", amount := -20, category := "Uncategorized",
    account_name := "", account_id := "", notes := "", pending := false,
    created_at := "", modified_at := "" }

/-- Priority-1 rule of the Claim C1 witness. -/
def shoppingRule : Rule :=
  { user_id := "u", rule_id := "r1", priority := 1,
    rule_field := "payee", rule_condition := "contains",
    rule_value := "amazon", rule_category := "Shopping", created_at := "" }

/-- Priority-2 rule of the Claim C1 witness. -/
def otherRule : Rule :=
  { user_id := "u", rule_id := "r2", priority := 2,
    rule_field := "payee", rule_condition := "contains",
    rule_value := "amazon", rule_category := "Other", created_at := "" }

/-- Witness for Claim C1 at the spec's worked example: two rules both
matching "amazon", priorities 1 and 2; only the priority-1 category is
emitted. -/
theorem apply_rules_spec_witness :
    ([shoppingRule, otherRule].Pairwise (fun a b => a.priority ≤ b.priority)) ∧
    (apply_rules_to_transactions [amazonTxn] [shoppingRule, otherRule] =
      [amazonTxn].filterMap (fun t =>
        match [shoppingRule, otherRule].find? (fun r => apply_rule t r) with
        | some r =>
          if t.category = r.rule_category then none
          else some (t.transaction_id, r.rule_category)
        | none => none) ∧
     (apply_rules_to_transactions [amazonTxn] [shoppingRule, otherRule]).length
        ≤ [amazonTxn].length) ∧
    apply_rules_to_transactions [amazonTxn] [shoppingRule, otherRule] =
      [("txn_id", "Shopping")] :=
  ⟨by decide,
    apply_rules_spec [amazonTxn] [shoppingRule, otherRule] (by decide),
    by decide⟩

theorem list_sum_nonpos : ∀ l : List ℚ, (∀ x ∈ l, x ≤ 0) → l.sum ≤ 0
  | [], _ => by simp
  | x :: xs, h => by
    rw [List.sum_cons]
    have hrest := list_sum_nonpos xs (fun y hy => h y (List.mem_cons_of_mem x hy))
    have hx := h x (List.mem_cons_self x xs)
    linarith

/-- Claim C4: every `spent` value attached by `calculate_budget_progress`
is the sum of the category's negative-amount transactions, hence is
nonpositive (the sign is retained), and is `0` when the category has no
expense transactions. -/
theorem calculate_budget_progress_spec (budgets : List Budget)
    (txns : List Txn) :
    ∀ p ∈ calculate_budget_progress budgets txns,
      p.2 = (((txns.filter (fun t => t.amount < 0)).filter
          (fun t => t.category = p.1.category)).map Txn.amount).sum ∧
      p.2 ≤ 0 ∧
      ((∀ t ∈ txns, t.category = p.1.category → 0 ≤ t.amount) → p.2 = 0) := by
  intro p hp
  simp only [calculate_budget_progress, List.mem_map] at hp
  obtain ⟨bgt, hb, rfl⟩ := hp
  refine ⟨rfl, ?_, ?_⟩
  · unfold categorySpending
    apply list_sum_nonpos
    intro x hx
    simp only [List.mem_map, List.mem_filter, decide_eq_true_eq] at hx
    obtain ⟨t, ⟨⟨_, hneg⟩, _⟩, rfl⟩ := hx
    exact le_of_lt hneg
  · intro h
    unfold categorySpending
    have hnil : (txns.filter (fun t => t.amount < 0)).filter
        (fun t => t.category = bgt.category) = [] := by
      rw [List.filter_eq_nil_iff]
      intro t ht
      simp only [List.mem_filter, decide_eq_true_eq] at ht
      obtain ⟨htx, hneg⟩ := ht
      simp only [decide_eq_true_eq]
      intro hcat
      exact absurd (h t htx hcat) (not_le.mpr hneg)
    rw [hnil]
    rfl

/-- Budget row used by the Claim C4 witness. -/
def groceriesBudget : Budget :=
  { user_id := "u", month_year := "2025-01", category := "Groceries",
    budgeted := 500 }

/-- Expense transaction used by the Claim C4 and C5 witnesses. -/
def groceryTxn : Txn :=
  { user_id := "u", transaction_id := "t9", date := ⟨2025, 1, 7⟩,
    payee := "SAFEWAY", amount := -80, category := "Groceries",
    account_name := "", account_id := "", notes := "", pending := false,
    created_at := "", modified_at := "" }

/-- Income transaction used by the Claim C4 and C5 witnesses. -/
def salaryTxn : Txn :=
  { user_id := "u", transaction_id := "t10", date := ⟨2025, 1, 2⟩,
    payee := "ACME SALARY", amount := 1000, category := "Income",
    account_name := "", account_id := "", notes := "", pending := false,
    created_at := "", modified_at := "" }

/-- Witness for Claim C4 at one budget row and two transactions. -/
theorem calculate_budget_progress_spec_witness :
    ((groceriesBudget, categorySpending [groceryTxn, salaryTxn] groceriesBudget.category) ∈
        calculate_budget_progress [groceriesBudget] [groceryTxn, salaryTxn]) ∧
    ((groceriesBudget, categorySpending [groceryTxn, salaryTxn] groceriesBudget.category).2 =
        ((([groceryTxn, salaryTxn].filter (fun t => t.amount < 0)).filter
            (fun t => t.category =
              (groceriesBudget,
                categorySpending [groceryTxn, salaryTxn] groceriesBudget.category).1.category)).map
          Txn.amount).sum ∧
      (groceriesBudget, categorySpending [groceryTxn, salaryTxn] groceriesBudget.category).2 ≤ 0 ∧
      ((∀ t ∈ [groceryTxn, salaryTxn],
          t.category =
            (groceriesBudget,
              categorySpending [groceryTxn, salaryTxn] groceriesBudget.category).1.category →
          0 ≤ t.amount) →
        (groceriesBudget, categorySpending [groceryTxn, salaryTxn] groceriesBudget.category).2 = 0)) :=
  ⟨by simp [calculate_budget_progress],
    calculate_budget_progress_spec [groceriesBudget] [groceryTxn, salaryTxn]
      (groceriesBudget, categorySpending [groceryTxn, salaryTxn] groceriesBudget.category)
      (by simp [calculate_budget_progress])⟩

/-- Claim C5: `calculate_monthly_summary` returns the all-zero summary
when no transaction falls in the period, and otherwise income is the sum
of positive amounts, expenses the absolute value of the sum of negative
amounts, net their difference, count the number of rows in the period,
and the average the arithmetic mean of all signed amounts. It is a total
function: it never fails on an empty period. -/
theorem calculate_monthly_summary_spec (txns : List Txn) (month_year : String) :
    (txns.filter (fun t => monthKey t.date == month_year) = [] →
      calculate_monthly_summary txns month_year =
        { income := 0, expenses := 0, net := 0, transaction_count := 0,
          avg_transaction := 0 }) ∧
    (txns.filter (fun t => monthKey t.date == month_year) ≠ [] →
      (calculate_monthly_summary txns month_year).income =
        (((txns.filter (fun t => monthKey t.date == month_year)).filter
            (fun t => 0 < t.amount)).map Txn.amount).sum ∧
      (calculate_monthly_summary txns month_year).expenses =
        |(((txns.filter (fun t => monthKey t.date == month_year)).filter
            (fun t => t.amount < 0)).map Txn.amount).sum| ∧
      (calculate_monthly_summary txns month_year).net =
        (calculate_monthly_summary txns month_year).income -
          (calculate_monthly_summary txns month_year).expenses ∧
      (calculate_monthly_summary txns month_year).transaction_count =
        (txns.filter (fun t => monthKey t.date == month_year)).length ∧
      (calculate_monthly_summary txns month_year).avg_transaction *
          ((txns.filter (fun t => monthKey t.date == month_year)).length : ℚ) =
        ((txns.filter (fun t => monthKey t.date == month_year)).map
          Txn.amount).sum) := by
  constructor
  · intro h
    unfold calculate_monthly_summary
    rw [h]
    rfl
  · intro h
    have hlen : (txns.filter (fun t => monthKey t.date == month_year)).length ≠ 0 :=
      fun hc => h (List.length_eq_zero.mp hc)
    unfold calculate_monthly_summary
    rw [if_neg hlen]
    refine ⟨rfl, pyAbs_eq_abs _, rfl, rfl, ?_⟩
    have hcast : ((txns.filter (fun t => monthKey t.date == month_year)).length : ℚ) ≠ 0 :=
      Nat.cast_ne_zero.mpr hlen
    exact div_mul_cancel₀ _ hcast

/-- Witness for Claim C5 at two January-2025 transactions, period
2025-01. -/
theorem calculate_monthly_summary_spec_witness :
    (([groceryTxn, salaryTxn].filter
        (fun t => monthKey t.date == "2025-01") ≠ []) ∧
      calculate_monthly_summary [groceryTxn, salaryTxn] "2025-01" =
        { income := 1000, expenses := 80, net := 920, transaction_count := 2,
          avg_transaction := 460 }) ∧
    (calculate_monthly_summary [groceryTxn, salaryTxn] "2025-01").avg_transaction *
        (([groceryTxn, salaryTxn].filter
          (fun t => monthKey t.date == "2025-01")).length : ℚ) =
      (([groceryTxn, salaryTxn].filter
          (fun t => monthKey t.date == "2025-01")).map Txn.amount).sum :=
  ⟨⟨by decide, by
      simp +decide [calculate_monthly_summary, groceryTxn, salaryTxn, monthKey,
        pad4, pad2, pyAbs]
      norm_num⟩,
    ((calculate_monthly_summary_spec [groceryTxn, salaryTxn] "2025-01").2
        (by decide)).2.2.2.2⟩

/-- Tie shape of the descending ranking: whenever two rows carry the same
summed amount, the left one is strictly lexicographically smaller. -/
def tieOrd (a b : String × ℚ) : Prop :=
  a.2 = b.2 → strLe a.1 b.1 ∧ a.1 ≠ b.1

theorem pairwise_tieOrd_orderedInsert (x : String × ℚ) :
    ∀ l : List (String × ℚ), l.Pairwise tieOrd → (∀ b ∈ l, tieOrd x b) →
      (l.orderedInsert byAmountDesc x).Pairwise tieOrd
  | [], _, _ => List.pairwise_singleton tieOrd x
  | b :: l, hl, hx => by
    rw [List.orderedInsert]
    split
    · exact List.Pairwise.cons (fun c hc => hx c hc) hl
    · rename_i hnot
      obtain ⟨hb, hl2⟩ := List.pairwise_cons.mp hl
      refine List.Pairwise.cons ?_ ?_
      · intro c hc
        rcases (List.mem_orderedInsert byAmountDesc).mp hc with rfl | hcl
        · intro heq
          exact absurd heq.le hnot
        · exact hb c hcl
      · exact pairwise_tieOrd_orderedInsert x l hl2
          (fun c hc => hx c (List.mem_cons_of_mem b hc))

theorem pairwise_tieOrd_insertionSort :
    ∀ l : List (String × ℚ), l.Pairwise tieOrd →
      (l.insertionSort byAmountDesc).Pairwise tieOrd
  | [], _ => List.Pairwise.nil
  | x :: l, h => by
    rw [List.insertionSort]
    obtain ⟨hx, hl⟩ := List.pairwise_cons.mp h
    refine pairwise_tieOrd_orderedInsert x _
      (pairwise_tieOrd_insertionSort l hl) ?_
    intro b hb
    exact hx b ((List.perm_insertionSort byAmountDesc l).mem_iff.mp hb)

theorem groupKeys_nodup (rows : List (String × ℚ)) : (groupKeys rows).Nodup :=
  (List.perm_insertionSort strLe _).nodup_iff.mpr
    (List.nodup_dedup (rows.map Prod.fst))

theorem groupKeys_sorted (rows : List (String × ℚ)) :
    (groupKeys rows).Pairwise strLe :=
  List.sorted_insertionSort strLe (rows.map Prod.fst).dedup

theorem mem_groupKeys {rows : List (String × ℚ)} {x : String × ℚ}
    (hx : x ∈ rows) : x.1 ∈ groupKeys rows :=
  (List.perm_insertionSort strLe _).mem_iff.mpr
    ((List.mem_dedup).mpr (List.mem_map_of_mem Prod.fst hx))

theorem groupedSums_pairwise_tieOrd (rows : List (String × ℚ)) :
    (groupedSums rows).Pairwise tieOrd := by
  unfold groupedSums
  rw [List.pairwise_map]
  have hlt : (groupKeys rows).Pairwise (fun a b => strLe a b ∧ a ≠ b) :=
    (groupKeys_sorted rows).and (groupKeys_nodup rows)
  exact hlt.imp (fun h => fun _ => h)

/-- Claim C8 (amended): `get_top_merchants` ranks payees weakly
descending by their summed absolute expense amounts; payees with equal
sums appear in strictly ascending lexicographic payee order — the order
the grouping step produces, since pandas `groupby` sorts its keys — not
in original insertion order; and each returned row carries the summed
absolute expense amount of its payee. -/
theorem get_top_merchants_order (txns : List Txn) (n : Nat) :
    (get_top_merchants txns n).Pairwise
      (fun a b => b.2 ≤ a.2 ∧ (a.2 = b.2 → strLe a.1 b.1 ∧ a.1 ≠ b.1)) ∧
    ∀ p ∈ get_top_merchants txns n,
      p.2 = (((expensePairs txns).filter
          (fun x => x.1 = p.1)).map Prod.snd).sum := by
  constructor
  · have hdesc :
        ((groupedSums (expensePairs txns)).insertionSort byAmountDesc).Pairwise
          byAmountDesc :=
      List.sorted_insertionSort byAmountDesc (groupedSums (expensePairs txns))
    have htie :
        ((groupedSums (expensePairs txns)).insertionSort byAmountDesc).Pairwise
          tieOrd :=
      pairwise_tieOrd_insertionSort _
        (groupedSums_pairwise_tieOrd (expensePairs txns))
    exact ((hdesc.and htie).sublist (List.take_sublist n _))
  · intro p hp
    have hp2 : p ∈ (groupedSums (expensePairs txns)).insertionSort byAmountDesc :=
      List.mem_of_mem_take hp
    have hp3 : p ∈ groupedSums (expensePairs txns) :=
      (List.perm_insertionSort byAmountDesc _).mem_iff.mp hp2
    simp only [groupedSums, List.mem_map] at hp3
    obtain ⟨k, _, rfl⟩ := hp3
    rfl

/-- Transaction with payee "Zebra" used for the Claim C8 counterexample
and the C8/C9 witnesses. -/
def zebraTxn : Txn :=
  { user_id := "u", transaction_id := "t1", date := ⟨2025, 1, 5⟩,
    payee := "Zebra", amount := -5, category := "Uncategorized",
    account_name := "", account_id := "", notes := "", pending := false,
    created_at := "", modified_at := "" }

/-- Transaction with payee "Apple" used for the Claim C8 counterexample
and the C8/C9 witnesses. -/
def appleTxn : Txn :=
  { user_id := "u", transaction_id := "t2", date := ⟨2025, 1, 6⟩,
    payee := "Apple", amount := -5, category := "Uncategorized",
    account_name := "", account_id := "", notes := "", pending := false,
    created_at := "", modified_at := "" }

/-- Counterexample to Claim C8 as stated: payees "Zebra" then "Apple"
(insertion order) with equal expense sums come back as
["Apple", "Zebra"], because the grouping step sorts payees before the
ranking sort sees them — the original insertion relative order of the
tied payees is NOT preserved. -/
theorem get_top_merchants_insertion_order_counterexample :
    [zebraTxn, appleTxn].map Txn.payee = ["Zebra", "Apple"] ∧
    (get_top_merchants [zebraTxn, appleTxn] 2).map Prod.snd = [5, 5] ∧
    (get_top_merchants [zebraTxn, appleTxn] 2).map Prod.fst = ["Apple", "Zebra"] ∧
    (get_top_merchants [zebraTxn, appleTxn] 2).map Prod.fst ≠ ["Zebra", "Apple"] := by
  refine ⟨by decide, ?_, ?_, ?_⟩ <;>
    simp +decide [get_top_merchants, groupedSums, groupKeys, expensePairs,
      zebraTxn, appleTxn, List.insertionSort, List.orderedInsert, strLe,
      charListLe, pyAbs]

/-- Witness for Claim C8 (amended) at the counterexample input. -/
theorem get_top_merchants_order_witness :
    (get_top_merchants [zebraTxn, appleTxn] 2).Pairwise
      (fun a b => b.2 ≤ a.2 ∧ (a.2 = b.2 → strLe a.1 b.1 ∧ a.1 ≠ b.1)) ∧
    ∀ p ∈ get_top_merchants [zebraTxn, appleTxn] 2,
      p.2 = (((expensePairs [zebraTxn, appleTxn]).filter
          (fun x => x.1 = p.1)).map Prod.snd).sum :=
  get_top_merchants_order [zebraTxn, appleTxn] 2

theorem sum_map_ite (a : String) (c : ℚ) :
    ∀ keys : List String, keys.Nodup → a ∈ keys →
      (keys.map (fun p => if a = p then c else 0)).sum = c
  | [], _, ha => absurd ha (List.not_mem_nil a)
  | k :: ks, hnd, ha => by
    rcases List.mem_cons.mp ha with rfl | ha2
    · have hnotin : a ∉ ks := (List.nodup_cons.mp hnd).1
      have hzero : (ks.map (fun p => if a = p then c else 0)).sum = 0 := by
        apply List.sum_eq_zero
        intro x hx
        simp only [List.mem_map] at hx
        obtain ⟨p, hp, rfl⟩ := hx
        rw [if_neg (fun h => hnotin (by rw [h]; exact hp))]
      rw [List.map_cons, List.sum_cons, if_pos rfl, hzero, add_zero]
    · have hka : a ≠ k := fun h => (List.nodup_cons.mp hnd).1 (by rw [← h]; exact ha2)
      simp only [List.map_cons, List.sum_cons, if_neg hka, zero_add]
      exact sum_map_ite a c ks (List.nodup_cons.mp hnd).2 ha2

theorem sum_map_add_distrib (f g : String → ℚ) :
    ∀ keys : List String,
      (keys.map (fun p => f p + g p)).sum = (keys.map f).sum + (keys.map g).sum
  | [] => by simp
  | k :: ks => by
    simp only [List.map_cons, List.sum_cons, sum_map_add_distrib f g ks]
    ring

/-- Summing per-group sums over a duplicate-free list of keys covering
all row keys recovers the total: the grouping step loses no amounts. -/
theorem sum_filter_partition (keys : List String) (hnd : keys.Nodup) :
    ∀ rows : List (String × ℚ), (∀ x ∈ rows, x.1 ∈ keys) →
      (keys.map
        (fun p => ((rows.filter (fun x => x.1 = p)).map Prod.snd).sum)).sum
        = (rows.map Prod.snd).sum
  | [], _ => by
    simp only [List.filter_nil, List.map_nil, List.sum_nil]
    exact List.sum_eq_zero (by
      intro x hx
      simp only [List.mem_map] at hx
      obtain ⟨p, _, rfl⟩ := hx
      rfl)
  | y :: ys, hcov => by
    have hstep : ∀ p : String,
        (((y :: ys).filter (fun x => x.1 = p)).map Prod.snd).sum
          = (if y.1 = p then y.2 else 0)
            + ((ys.filter (fun x => x.1 = p)).map Prod.snd).sum := by
      intro p
      by_cases h : y.1 = p
      · simp [List.filter_cons, h]
      · simp [List.filter_cons, h]
    simp only [hstep]
    rw [sum_map_add_distrib, sum_map_ite y.1 y.2 keys hnd
        (hcov y (List.mem_cons_self y ys)),
      sum_filter_partition keys hnd ys
        (fun x hx => hcov x (List.mem_cons_of_mem y hx)),
      List.map_cons, List.sum_cons]

/-- Claim C9: when `n` equals the number of distinct payees that have
expense transactions, the "Total Spent" values returned by
`get_top_merchants` sum to the total absolute expense amount of the
whole collection. -/
theorem get_top_merchants_total (txns : List Txn) (n : Nat)
    (hn : n = ((txns.filter (fun t => t.amount < 0)).map Txn.payee).dedup.length) :
    ((get_top_merchants txns n).map Prod.snd).sum =
      ((txns.filter (fun t => t.amount < 0)).map (fun t => |t.amount|)).sum := by
  have hfst : (expensePairs txns).map Prod.fst =
      (txns.filter (fun t => t.amount < 0)).map Txn.payee := by
    simp [expensePairs, List.map_map, Function.comp]
  have hkeyslen : (groupKeys (expensePairs txns)).length = n := by
    rw [groupKeys,
      (List.perm_insertionSort strLe ((expensePairs txns).map Prod.fst).dedup).length_eq,
      hfst, hn]
  have hsortlen :
      ((groupedSums (expensePairs txns)).insertionSort byAmountDesc).length = n := by
    rw [(List.perm_insertionSort byAmountDesc (groupedSums (expensePairs txns))).length_eq,
      groupedSums, List.length_map, hkeyslen]
  rw [get_top_merchants, List.take_of_length_le (le_of_eq hsortlen),
    ((List.perm_insertionSort byAmountDesc
        (groupedSums (expensePairs txns))).map Prod.snd).sum_eq]
  have hgs : (groupedSums (expensePairs txns)).map Prod.snd =
      (groupKeys (expensePairs txns)).map
        (fun p => (((expensePairs txns).filter
          (fun x => x.1 = p)).map Prod.snd).sum) := by
    simp [groupedSums, List.map_map, Function.comp]
  rw [hgs, sum_filter_partition (groupKeys (expensePairs txns))
      (groupKeys_nodup (expensePairs txns)) (expensePairs txns)
      (fun x hx => mem_groupKeys hx)]
  simp only [expensePairs, List.map_map, Function.comp]
  congr 1
  apply List.map_congr_left
  intro t _
  exact pyAbs_eq_abs t.amount

/-- Witness for Claim C9 at two expense transactions with distinct
payees and one income transaction, `n = 2`. -/
theorem get_top_merchants_total_witness :
    (2 = (([zebraTxn, appleTxn, salaryTxn].filter
        (fun t => t.amount < 0)).map Txn.payee).dedup.length) ∧
    ((get_top_merchants [zebraTxn, appleTxn, salaryTxn] 2).map Prod.snd).sum =
      (([zebraTxn, appleTxn, salaryTxn].filter
        (fun t => t.amount < 0)).map (fun t => |t.amount|)).sum :=
  ⟨by decide,
    get_top_merchants_total [zebraTxn, appleTxn, salaryTxn] 2 (by decide)⟩
